import Mathlib

/-!
Shallow embedding of the adaptive rate-control subsystem of
`src/server/mjpeg-encoder.c` (SPICE Motion-JPEG video encoder).

Modelling conventions:
* C unsigned 64-bit counters, sizes and nanosecond timestamps become `Nat`
  (the quantities involved never approach 2^64 in the modelled scenarios;
  where 32-bit truncation matters - `JDIMENSION` stride arithmetic and the
  `uint32_t` arithmetic of `get_min_required_playback_delay` and of
  `stable_client_mm_time` - the reduction `% 2^32` is written explicitly).
* C `double` values (`adjusted_fps`, the fps-threshold comparisons, the
  measured byte-rate computed through `duration_sec`) become `ℚ`; the
  `uint64_t` conversion of a positive double truncates toward zero, which is
  modelled with `Nat` floor division.
* The JPEG codec, the pixel buffers and the host callbacks are external to
  the subsystem: the encoded byte size produced by the codec and the source
  fps reported by the host enter the model as parameters, and the monotonic
  clock value `now` is threaded explicitly into every operation that reads it.
* Fields of `MJpegEncoder` that the rate-control logic never reads
  (the libjpeg compression context, the row-conversion scratch buffer)
  are not represented.
-/

/-! Constants from the top of mjpeg-encoder.c and from the time utilities. -/

def NSEC_PER_SEC : Nat := 1000000000

def NSEC_PER_MILLISEC : Nat := 1000000

def MSEC_PER_SEC : Nat := 1000

def MJPEG_MAX_FPS : Nat := 25

def MJPEG_MIN_FPS : Nat := 1

def MJPEG_QUALITY_SAMPLE_NUM : Nat := 7

def mjpeg_quality_samples : List Nat := [20, 30, 40, 50, 60, 70, 80]

def MJPEG_IMPROVE_QUALITY_FPS_STRICT_TH : Nat := 10

def MJPEG_IMPROVE_QUALITY_FPS_PERMISSIVE_TH : Nat := 5

def MJPEG_AVERAGE_SIZE_WINDOW : Nat := 3

def MJPEG_BIT_RATE_EVAL_MIN_NUM_FRAMES : Nat := 3

def MJPEG_SERVER_STATUS_EVAL_FPS_INTERVAL : Nat := 1

/-- MJPEG_SERVER_STATUS_DOWNGRADE_DROP_FACTOR_TH = 0.1, as a rational. -/
def MJPEG_SERVER_STATUS_DOWNGRADE_DROP_FACTOR_TH : ℚ := 1 / 10

def MJPEG_CLIENT_POSITIVE_REPORT_TIMEOUT : Int := 2000

def MJPEG_CLIENT_POSITIVE_REPORT_STRICT_TIMEOUT : Int := 3000

def MJPEG_ADJUST_FPS_TIMEOUT : Nat := 500

def MJPEG_MAX_CLIENT_PLAYBACK_DELAY : Nat := MSEC_PER_SEC * 5

def MJPEG_WARMUP_TIME : Nat := NSEC_PER_SEC * 3

/-- Reduction modulo 2^32, for the places where C performs 32-bit
unsigned arithmetic. -/
def u32 (n : Nat) : Nat := n % 4294967296

/-- The C idiom `(int)a - b` with `a b : uint32_t`: the subtraction is
performed modulo 2^32 and the result is reinterpreted as a signed 32-bit
value (two's complement). -/
def i32_of_u32_sub (a b : Nat) : Int :=
  let d := (u32 a + 4294967296 - u32 b) % 4294967296
  if d < 2147483648 then (d : Int) else (d : Int) - 4294967296

/-! The enums of mjpeg-encoder.c. -/

inductive EvalType where
  | SET
  | UPGRADE
  | DOWNGRADE
deriving DecidableEq, Repr

inductive EvalReason where
  | SIZE_CHANGE
  | RATE_CHANGE
deriving DecidableEq, Repr

/-- Result codes of the per-frame entry point (video-encoder.h). -/
inductive FrameResult where
  | FRAME_DROP
  | FRAME_UNSUPPORTED
  | FRAME_ENCODE_DONE
deriving DecidableEq, Repr

/-- The SpiceBitmapFmt values distinguished by mjpeg_encoder_start_frame;
`OTHER` collapses every format that falls into the `default:` branch. -/
inductive BitmapFmt where
  | FMT_32BIT
  | FMT_RGBA
  | FMT_16BIT
  | FMT_24BIT
  | OTHER
deriving DecidableEq, Repr

/-! The state records of mjpeg-encoder.c. -/

structure MJpegEncoderQualityEval where
  type : EvalType
  reason : EvalReason
  /-- `encoded_size_by_quality[MJPEG_QUALITY_SAMPLE_NUM]`: a 7-element
  vector, kept as a list; 0 means "not yet sampled". -/
  encoded_size_by_quality : List Nat
  min_quality_id : Nat
  min_quality_fps : Nat
  max_quality_id : Nat
  max_quality_fps : Nat
  max_sampled_fps : Nat
  max_sampled_fps_quality_id : Nat
deriving DecidableEq, Repr

structure MJpegEncoderClientState where
  max_video_latency : Int
  max_audio_latency : Nat
deriving DecidableEq, Repr

structure MJpegEncoderServerState where
  num_frames_encoded : Nat
  num_frames_dropped : Nat
deriving DecidableEq, Repr

structure MJpegEncoderBitRateInfo where
  change_start_time : Nat
  last_frame_time : Nat
  change_start_mm_time : Nat
  was_upgraded : Bool
  num_enc_frames : Nat
  sum_enc_size : Nat
deriving DecidableEq, Repr

structure MJpegEncoderRateControl where
  during_quality_eval : Bool
  quality_eval_data : MJpegEncoderQualityEval
  bit_rate_info : MJpegEncoderBitRateInfo
  client_state : MJpegEncoderClientState
  server_state : MJpegEncoderServerState
  byte_rate : Nat
  quality_id : Nat
  fps : Nat
  adjusted_fps : ℚ
  adjusted_fps_start_time : Nat
  adjusted_fps_num_frames : Nat
  base_enc_size : Nat
  last_enc_size : Nat
  sum_recent_enc_size : Nat
  num_recent_enc_frames : Nat
  warmup_start_time : Nat
deriving DecidableEq, Repr

structure MJpegEncoder where
  first_frame : Bool
  bytes_per_pixel : Nat
  /-- whether `encoder->pixel_converter` is non-NULL. -/
  pixel_converter : Bool
  rate_control : MJpegEncoderRateControl
  starting_bit_rate : Nat
  avg_quality : Nat
  num_frames : Nat
  /-- the value the host's get_source_fps callback returns
  (MJPEG_MAX_FPS when the callback is absent). -/
  src_fps : Nat
  /-- build configuration: whether libjpeg was compiled with
  JCS_EXTENSIONS (selects the `#ifdef` variant of start_frame). -/
  jcs_extensions : Bool
deriving DecidableEq, Repr

/-- `mjpeg_encoder_get_source_fps`. -/
def mjpeg_encoder_get_source_fps (e : MJpegEncoder) : Nat := e.src_fps

/-- `get_max_fps`: `frame_size ? bytes_per_sec / frame_size : MJPEG_MAX_FPS`. -/
def get_max_fps (frame_size bytes_per_sec : Nat) : Nat :=
  if frame_size ≠ 0 then bytes_per_sec / frame_size else MJPEG_MAX_FPS

/-- `QUALITY_WAS_EVALUATED`: `encoded_size_by_quality[quality] != 0`. -/
def quality_was_evaluated (e : MJpegEncoder) (quality : Nat) : Bool :=
  (e.rate_control.quality_eval_data.encoded_size_by_quality.getD quality 0) ≠ 0

/-- the zero-initialized MJpegEncoderQualityEval (as produced by memset 0 /
spice_new0; type SET and reason SIZE_CHANGE are the 0 enum members). -/
def zeroQualityEval : MJpegEncoderQualityEval :=
  { type := EvalType.SET
    reason := EvalReason.SIZE_CHANGE
    encoded_size_by_quality := [0, 0, 0, 0, 0, 0, 0]
    min_quality_id := 0
    min_quality_fps := 0
    max_quality_id := 0
    max_quality_fps := 0
    max_sampled_fps := 0
    max_sampled_fps_quality_id := 0 }

/-- `mjpeg_encoder_reset_quality`. -/
def mjpeg_encoder_reset_quality (e : MJpegEncoder) (quality_id : Nat)
    (fps : Nat) (frame_enc_size : Nat) : MJpegEncoder :=
  let rc := e.rate_control
  let rc := { rc with during_quality_eval := false }
  let rc := if rc.quality_id ≠ quality_id then { rc with last_enc_size := 0 } else rc
  let rc := if rc.quality_eval_data.reason = EvalReason.RATE_CHANGE then
      { rc with server_state := { num_frames_encoded := 0, num_frames_dropped := 0 } }
    else rc
  let rc := { rc with
    quality_id := quality_id
    quality_eval_data := { zeroQualityEval with
      max_quality_id := MJPEG_QUALITY_SAMPLE_NUM - 1
      max_quality_fps := MJPEG_MAX_FPS } }
  let fps_ratio : ℚ := if rc.adjusted_fps ≠ 0 then rc.adjusted_fps / rc.fps else 3 / 2
  let fps2 := max MJPEG_MIN_FPS fps
  let fps3 := min MJPEG_MAX_FPS fps2
  let rc := { rc with
    fps := fps3
    adjusted_fps := (fps3 : ℚ) * fps_ratio
    adjusted_fps_start_time := 0
    adjusted_fps_num_frames := 0
    base_enc_size := frame_enc_size
    sum_recent_enc_size := 0
    num_recent_enc_frames := 0 }
  { e with rate_control := rc }

/-- `mjpeg_encoder_quality_eval_set_upgrade`. -/
def mjpeg_encoder_quality_eval_set_upgrade (e : MJpegEncoder) (reason : EvalReason)
    (min_quality_id min_quality_fps : Nat) : MJpegEncoder :=
  { e with rate_control := { e.rate_control with
      during_quality_eval := true
      quality_eval_data := { e.rate_control.quality_eval_data with
        type := EvalType.UPGRADE
        reason := reason
        min_quality_id := min_quality_id
        min_quality_fps := min_quality_fps } } }

/-- `mjpeg_encoder_quality_eval_set_downgrade`. -/
def mjpeg_encoder_quality_eval_set_downgrade (e : MJpegEncoder) (reason : EvalReason)
    (max_quality_id max_quality_fps : Nat) : MJpegEncoder :=
  { e with rate_control := { e.rate_control with
      during_quality_eval := true
      quality_eval_data := { e.rate_control.quality_eval_data with
        type := EvalType.DOWNGRADE
        reason := reason
        max_quality_id := max_quality_id
        max_quality_fps := max_quality_fps } } }

/-- `mjpeg_encoder_quality_eval_stop`. -/
def mjpeg_encoder_quality_eval_stop (e : MJpegEncoder) : MJpegEncoder :=
  if e.rate_control.during_quality_eval then
    match e.rate_control.quality_eval_data.type with
    | EvalType.UPGRADE =>
        mjpeg_encoder_reset_quality e
          e.rate_control.quality_eval_data.min_quality_id
          e.rate_control.quality_eval_data.min_quality_fps 0
    | EvalType.DOWNGRADE =>
        mjpeg_encoder_reset_quality e
          e.rate_control.quality_eval_data.max_quality_id
          e.rate_control.quality_eval_data.max_quality_fps 0
    | EvalType.SET =>
        mjpeg_encoder_reset_quality e
          (MJPEG_QUALITY_SAMPLE_NUM / 2) (MJPEG_MAX_FPS / 2) 0
  else e

/-- the `complete_sample:` label of `mjpeg_encoder_eval_quality`
(the state at the jump already carries the possibly decremented
quality_id). The `update_client_playback_delay` host callback emitted at
the end has no effect on the encoder state. -/
def mjpeg_eval_complete_sample (e : MJpegEncoder) : MJpegEncoder :=
  let rc := e.rate_control
  let quality_eval := rc.quality_eval_data
  let final_quality_id :=
    if quality_eval.max_sampled_fps ≠ 0 then
      max rc.quality_id quality_eval.max_sampled_fps_quality_id
    else rc.quality_id
  let final_quality_enc_size := quality_eval.encoded_size_by_quality.getD final_quality_id 0
  let final_fps := get_max_fps final_quality_enc_size rc.byte_rate
  let final_fps := if final_quality_id = quality_eval.min_quality_id then
      max final_fps quality_eval.min_quality_fps
    else final_fps
  let final_fps := if final_quality_id = quality_eval.max_quality_id then
      min final_fps quality_eval.max_quality_fps
    else final_fps
  let e := mjpeg_encoder_reset_quality e final_quality_id final_fps final_quality_enc_size
  { e with rate_control := { e.rate_control with
      sum_recent_enc_size := final_quality_enc_size
      num_recent_enc_frames := 1 } }

/-- `mjpeg_encoder_eval_quality` (called only while during_quality_eval). -/
def mjpeg_encoder_eval_quality (e : MJpegEncoder) : MJpegEncoder :=
  let rc := e.rate_control
  let quality_eval := rc.quality_eval_data
  let enc_size := quality_eval.encoded_size_by_quality.getD rc.quality_id 0
  if enc_size = 0 then e
  else
    let src_fps := mjpeg_encoder_get_source_fps e
    let fps := get_max_fps enc_size rc.byte_rate
    let e :=
      if fps > quality_eval.max_sampled_fps ∨
         ((fps = quality_eval.max_sampled_fps ∨ fps ≥ src_fps) ∧
          rc.quality_id > quality_eval.max_sampled_fps_quality_id) then
        { e with rate_control := { rc with
            quality_eval_data := { quality_eval with
              max_sampled_fps := fps
              max_sampled_fps_quality_id := rc.quality_id } } }
      else e
    let rc := e.rate_control
    if rc.quality_id > MJPEG_QUALITY_SAMPLE_NUM / 2 ∧
       fps < MJPEG_IMPROVE_QUALITY_FPS_STRICT_TH ∧ fps < src_fps then
      if quality_was_evaluated e (rc.quality_id - 1) then
        mjpeg_eval_complete_sample
          { e with rate_control := { rc with quality_id := rc.quality_id - 1 } }
      else
        { e with rate_control := { rc with quality_id := rc.quality_id - 1 } }
    else if (fps > MJPEG_IMPROVE_QUALITY_FPS_PERMISSIVE_TH ∧
             (fps : ℚ) ≥ 66 / 100 * (rc.quality_eval_data.min_quality_fps : ℚ)) ∨
            fps ≥ src_fps then
      if rc.quality_id + 1 = MJPEG_QUALITY_SAMPLE_NUM ∨
         rc.quality_id ≥ rc.quality_eval_data.max_quality_id ∨
         quality_was_evaluated e (rc.quality_id + 1) then
        mjpeg_eval_complete_sample e
      else if rc.quality_id = MJPEG_QUALITY_SAMPLE_NUM / 2 ∧
              fps < MJPEG_IMPROVE_QUALITY_FPS_STRICT_TH ∧ fps < src_fps then
        mjpeg_eval_complete_sample e
      else
        { e with rate_control := { rc with quality_id := rc.quality_id + 1 } }
    else
      if rc.quality_id = 0 ∨ rc.quality_id ≤ rc.quality_eval_data.min_quality_id then
        mjpeg_eval_complete_sample e
      else if quality_was_evaluated e (rc.quality_id - 1) then
        mjpeg_eval_complete_sample
          { e with rate_control := { rc with quality_id := rc.quality_id - 1 } }
      else
        { e with rate_control := { rc with quality_id := rc.quality_id - 1 } }

/-- the raw measured byte rate of the estimation branch shared by
`mjpeg_encoder_decrease_bit_rate` and `mjpeg_encoder_increase_bit_rate`:
`sum_enc_size / duration_sec` with
`duration_sec = (last_frame_time - change_start_time) / NSEC_PER_SEC`
computed in `double` and the quotient truncated to `uint64_t`. -/
def measured_byte_rate_raw (e : MJpegEncoder) : Nat :=
  e.rate_control.bit_rate_info.sum_enc_size * NSEC_PER_SEC /
    (e.rate_control.bit_rate_info.last_frame_time -
     e.rate_control.bit_rate_info.change_start_time)

/-- the tail of `mjpeg_encoder_decrease_bit_rate` after the warm-up check
(bit-rate estimation, decrease, BitRateInfo reset, DOWNGRADE entry). -/
def mjpeg_decrease_bit_rate_core (e : MJpegEncoder) : MJpegEncoder :=
  let rc := e.rate_control
  let bit_rate_info := rc.bit_rate_info
  let est := bit_rate_info.num_enc_frames > MJPEG_BIT_RATE_EVAL_MIN_NUM_FRAMES ∨
             bit_rate_info.num_enc_frames > rc.fps
  let measured_byte_rate :=
    if est then measured_byte_rate_raw e else rc.byte_rate
  let decrease_size :=
    if est then bit_rate_info.sum_enc_size / bit_rate_info.num_enc_frames
    else measured_byte_rate / rc.fps
  let measured_byte_rate := min rc.byte_rate measured_byte_rate
  let decrease_size :=
    if decrease_size ≥ measured_byte_rate then measured_byte_rate / 2 else decrease_size
  let e := { e with rate_control := { rc with
      byte_rate := measured_byte_rate - decrease_size
      bit_rate_info := { bit_rate_info with
        change_start_time := 0
        change_start_mm_time := 0
        last_frame_time := 0
        num_enc_frames := 0
        sum_enc_size := 0
        was_upgraded := false } } }
  mjpeg_encoder_quality_eval_set_downgrade e EvalReason.RATE_CHANGE
    e.rate_control.quality_id e.rate_control.fps

/-- `mjpeg_encoder_decrease_bit_rate`; `now` is the value
`spice_get_monotonic_time_ns()` returns inside the call. -/
def mjpeg_encoder_decrease_bit_rate (e : MJpegEncoder) (now : Nat) : MJpegEncoder :=
  let e := mjpeg_encoder_quality_eval_stop e
  let e := { e with rate_control := { e.rate_control with
      client_state := { max_video_latency := 0, max_audio_latency := 0 } } }
  if e.rate_control.warmup_start_time ≠ 0 then
    if now - e.rate_control.warmup_start_time < MJPEG_WARMUP_TIME then e
    else
      mjpeg_decrease_bit_rate_core
        { e with rate_control := { e.rate_control with warmup_start_time := 0 } }
  else mjpeg_decrease_bit_rate_core e

/-- `mjpeg_encoder_increase_bit_rate`. -/
def mjpeg_encoder_increase_bit_rate (e : MJpegEncoder) : MJpegEncoder :=
  let rc := e.rate_control
  let bit_rate_info := rc.bit_rate_info
  if bit_rate_info.num_enc_frames > MJPEG_BIT_RATE_EVAL_MIN_NUM_FRAMES ∨
     bit_rate_info.num_enc_frames > rc.fps then
    let measured_byte_rate := measured_byte_rate_raw e
    let avg_frame_size := bit_rate_info.sum_enc_size / bit_rate_info.num_enc_frames
    let increase_size := avg_frame_size
    let e := mjpeg_encoder_quality_eval_stop e
    let e :=
      if measured_byte_rate + increase_size < e.rate_control.byte_rate then e
      else { e with rate_control := { e.rate_control with
          byte_rate := min measured_byte_rate e.rate_control.byte_rate + increase_size } }
    let e := { e with rate_control := { e.rate_control with
        bit_rate_info := { e.rate_control.bit_rate_info with
          change_start_time := 0
          change_start_mm_time := 0
          last_frame_time := 0
          num_enc_frames := 0
          sum_enc_size := 0
          was_upgraded := true } } }
    mjpeg_encoder_quality_eval_set_upgrade e EvalReason.RATE_CHANGE
      e.rate_control.quality_id e.rate_control.fps
  else e

/-- `mjpeg_encoder_handle_positive_client_stream_report`. -/
def mjpeg_encoder_handle_positive_client_stream_report (e : MJpegEncoder)
    (report_start_frame_mm_time : Nat) : MJpegEncoder :=
  let rc := e.rate_control
  if rc.during_quality_eval ∧
     rc.quality_eval_data.reason = EvalReason.RATE_CHANGE then e
  else
    let timeout : Int :=
      if (rc.fps > MJPEG_IMPROVE_QUALITY_FPS_STRICT_TH ∨
          rc.fps ≥ mjpeg_encoder_get_source_fps e) ∧
         rc.quality_id > MJPEG_QUALITY_SAMPLE_NUM / 2 then
        MJPEG_CLIENT_POSITIVE_REPORT_STRICT_TIMEOUT
      else
        MJPEG_CLIENT_POSITIVE_REPORT_TIMEOUT
    let stable_client_mm_time : Int :=
      i32_of_u32_sub report_start_frame_mm_time rc.bit_rate_info.change_start_mm_time
    if rc.bit_rate_info.change_start_mm_time = 0 ∨ stable_client_mm_time < timeout then e
    else mjpeg_encoder_increase_bit_rate e

/-- `mjpeg_encoder_process_server_drops`; `now` is the monotonic clock
value a nested `mjpeg_encoder_decrease_bit_rate` would read. -/
def mjpeg_encoder_process_server_drops (e : MJpegEncoder) (now : Nat) : MJpegEncoder :=
  let server_state := e.rate_control.server_state
  let fps := min e.rate_control.fps (mjpeg_encoder_get_source_fps e)
  if server_state.num_frames_encoded < fps * MJPEG_SERVER_STATUS_EVAL_FPS_INTERVAL then e
  else
    let num_frames_total := server_state.num_frames_dropped + server_state.num_frames_encoded
    let drop_factor : ℚ := (server_state.num_frames_dropped : ℚ) / (num_frames_total : ℚ)
    let e :=
      if drop_factor > MJPEG_SERVER_STATUS_DOWNGRADE_DROP_FACTOR_TH then
        mjpeg_encoder_decrease_bit_rate e now
      else e
    { e with rate_control := { e.rate_control with
        server_state := { num_frames_encoded := 0, num_frames_dropped := 0 } } }

/-- `mjpeg_encoder_adjust_params_to_bit_rate`. -/
def mjpeg_encoder_adjust_params_to_bit_rate (e : MJpegEncoder) (now : Nat) : MJpegEncoder :=
  let rc := e.rate_control
  if rc.last_enc_size = 0 then e
  else if rc.during_quality_eval then
    let e := { e with rate_control := { rc with
        quality_eval_data := { rc.quality_eval_data with
          encoded_size_by_quality :=
            rc.quality_eval_data.encoded_size_by_quality.set rc.quality_id rc.last_enc_size } } }
    mjpeg_encoder_eval_quality e
  else if rc.num_recent_enc_frames = 0 then e
  else if rc.num_recent_enc_frames < MJPEG_AVERAGE_SIZE_WINDOW ∧
          rc.num_recent_enc_frames < rc.fps then
    -- `goto end` with during_quality_eval still false
    mjpeg_encoder_process_server_drops e now
  else
    let new_avg_enc_size := rc.sum_recent_enc_size / rc.num_recent_enc_frames
    let new_fps := get_max_fps new_avg_enc_size rc.byte_rate
    let src_fps := mjpeg_encoder_get_source_fps e
    let e :=
      if new_fps > rc.fps ∧
         (rc.fps < src_fps ∨ rc.quality_id < MJPEG_QUALITY_SAMPLE_NUM - 1) then
        mjpeg_encoder_quality_eval_set_upgrade e EvalReason.SIZE_CHANGE rc.quality_id rc.fps
      else if new_fps < rc.fps ∧ new_fps < src_fps then
        mjpeg_encoder_quality_eval_set_downgrade e EvalReason.SIZE_CHANGE rc.quality_id rc.fps
      else e
    if e.rate_control.during_quality_eval then
      let rc2 := e.rate_control
      let e := { e with rate_control := { rc2 with
          quality_eval_data := { rc2.quality_eval_data with
            encoded_size_by_quality :=
              rc2.quality_eval_data.encoded_size_by_quality.set rc2.quality_id new_avg_enc_size } } }
      mjpeg_encoder_eval_quality e
    else
      mjpeg_encoder_process_server_drops e now

/-- `mjpeg_encoder_adjust_fps`. -/
def mjpeg_encoder_adjust_fps (e : MJpegEncoder) (now : Nat) : MJpegEncoder :=
  let rc := e.rate_control
  let adjusted_fps_time_passed := (now - rc.adjusted_fps_start_time) / NSEC_PER_MILLISEC
  if ¬rc.during_quality_eval ∧
     adjusted_fps_time_passed > MJPEG_ADJUST_FPS_TIMEOUT ∧
     (adjusted_fps_time_passed : ℚ) > (MSEC_PER_SEC : ℚ) / rc.adjusted_fps then
    let avg_fps : ℚ :=
      ((rc.adjusted_fps_num_frames : ℚ) * (MSEC_PER_SEC : ℚ)) / (adjusted_fps_time_passed : ℚ)
    let fps_ratio : ℚ := avg_fps / (rc.fps : ℚ)
    let rc :=
      if avg_fps + 1 / 2 < (rc.fps : ℚ) ∧
         (mjpeg_encoder_get_source_fps e : ℚ) > avg_fps then
        let new_adjusted_fps : ℚ :=
          if avg_fps ≠ 0 then rc.adjusted_fps / fps_ratio else rc.adjusted_fps * 2
        { rc with adjusted_fps := min ((rc.fps : ℚ) * 2) new_adjusted_fps }
      else if (rc.fps : ℚ) + 1 / 2 < avg_fps then
        { rc with adjusted_fps := max (rc.fps : ℚ) (rc.adjusted_fps / fps_ratio) }
      else rc
    { e with rate_control := { rc with
        adjusted_fps_start_time := now
        adjusted_fps_num_frames := 0 } }
  else e

/-- bytes per pixel selected by the format switch of start_frame. -/
def fmt_bytes_per_pixel : BitmapFmt → Nat
  | BitmapFmt.FMT_32BIT => 4
  | BitmapFmt.FMT_RGBA => 4
  | BitmapFmt.FMT_16BIT => 2
  | BitmapFmt.FMT_24BIT => 3
  | BitmapFmt.OTHER => 0

/-- whether the format switch of start_frame installs a pixel converter
(the 16-bit format always converts; 24/32-bit convert only when libjpeg
lacks JCS_EXTENSIONS). -/
def fmt_pixel_converter (fmt : BitmapFmt) (jcs_extensions : Bool) : Bool :=
  match fmt with
  | BitmapFmt.FMT_32BIT => ¬jcs_extensions
  | BitmapFmt.FMT_RGBA => ¬jcs_extensions
  | BitmapFmt.FMT_16BIT => true
  | BitmapFmt.FMT_24BIT => ¬jcs_extensions
  | BitmapFmt.OTHER => false

/-- the state of `mjpeg_encoder_start_frame` at the admission gate:
`adjusted_fps_start_time` initialized, `mjpeg_encoder_adjust_fps` run. -/
def mjpeg_start_frame_gate (e : MJpegEncoder) (now : Nat) : MJpegEncoder :=
  let e :=
    if e.rate_control.adjusted_fps_start_time = 0 then
      { e with rate_control := { e.rate_control with adjusted_fps_start_time := now } }
    else e
  mjpeg_encoder_adjust_fps e now

/-- the state of `mjpeg_encoder_start_frame` after the admission gate was
passed: rate-control adjustment followed by the BitRateInfo timestamp
bookkeeping. -/
def mjpeg_start_frame_body (e : MJpegEncoder) (now frame_mm_time : Nat) : MJpegEncoder :=
  let e := mjpeg_encoder_adjust_params_to_bit_rate e now
  if ¬e.rate_control.during_quality_eval ∨
     e.rate_control.quality_eval_data.reason = EvalReason.SIZE_CHANGE then
    let bit_rate_info := e.rate_control.bit_rate_info
    let bit_rate_info :=
      if bit_rate_info.change_start_time = 0 then
        { bit_rate_info with change_start_time := now, change_start_mm_time := frame_mm_time }
      else bit_rate_info
    { e with rate_control := { e.rate_control with
        bit_rate_info := { bit_rate_info with last_frame_time := now } } }
  else e

/-- `mjpeg_encoder_start_frame`; `now` is the monotonic clock value,
`image_width` is `src->right - src->left`. The libjpeg configuration
calls (color space, destination manager, quality, start_compress) have no
effect on the modelled state beyond the stats counters. -/
def mjpeg_encoder_start_frame (e : MJpegEncoder) (now : Nat) (fmt : BitmapFmt)
    (image_width : Nat) (frame_mm_time : Nat) : FrameResult × MJpegEncoder :=
  let e := mjpeg_start_frame_gate e now
  let interval := now - e.rate_control.bit_rate_info.last_frame_time
  if (interval : ℚ) < (NSEC_PER_SEC : ℚ) / e.rate_control.adjusted_fps then
    (FrameResult.FRAME_DROP, e)
  else
    let e := mjpeg_start_frame_body e now frame_mm_time
    let e := { e with pixel_converter := false }
    match fmt with
    | BitmapFmt.OTHER => (FrameResult.FRAME_UNSUPPORTED, e)
    | _ =>
      let e := { e with
        bytes_per_pixel := fmt_bytes_per_pixel fmt
        pixel_converter := fmt_pixel_converter fmt e.jcs_extensions }
      if e.pixel_converter ∧ u32 (u32 image_width * 3) < u32 image_width then
        (FrameResult.FRAME_UNSUPPORTED, e)
      else
        let quality := mjpeg_quality_samples.getD e.rate_control.quality_id 0
        (FrameResult.FRAME_ENCODE_DONE,
         { e with num_frames := e.num_frames + 1, avg_quality := e.avg_quality + quality })

/-- `mjpeg_encoder_encode_scanline`, reduced to its effect on the
rate-control state: `scanlines_written` is what `jpeg_write_scanlines`
returned; on 0 the compression is aborted and `last_enc_size` is cleared. -/
def mjpeg_encoder_encode_scanline (e : MJpegEncoder) (scanlines_written : Nat) :
    Nat × MJpegEncoder :=
  if scanlines_written = 0 then
    (0, { e with rate_control := { e.rate_control with last_enc_size := 0 } })
  else (scanlines_written, e)

/-- `mjpeg_encoder_end_frame`; `enc_size` is the number of bytes the codec
wrote into the output buffer (`next_output_byte - buffer`). -/
def mjpeg_encoder_end_frame (e : MJpegEncoder) (enc_size : Nat) : MJpegEncoder :=
  let e := { e with
    first_frame := false
    rate_control := { e.rate_control with
      last_enc_size := enc_size
      server_state := { e.rate_control.server_state with
        num_frames_encoded := e.rate_control.server_state.num_frames_encoded + 1 } } }
  if ¬e.rate_control.during_quality_eval ∨
     e.rate_control.quality_eval_data.reason = EvalReason.SIZE_CHANGE then
    let e :=
      if ¬e.rate_control.during_quality_eval then
        let rc := e.rate_control
        let rc :=
          if rc.num_recent_enc_frames ≥ MJPEG_AVERAGE_SIZE_WINDOW then
            { rc with num_recent_enc_frames := 0, sum_recent_enc_size := 0 }
          else rc
        { e with rate_control := { rc with
            sum_recent_enc_size := rc.sum_recent_enc_size + rc.last_enc_size
            num_recent_enc_frames := rc.num_recent_enc_frames + 1
            adjusted_fps_num_frames := rc.adjusted_fps_num_frames + 1 } }
      else e
    { e with rate_control := { e.rate_control with
        bit_rate_info := { e.rate_control.bit_rate_info with
          sum_enc_size := e.rate_control.bit_rate_info.sum_enc_size +
            e.rate_control.last_enc_size
          num_enc_frames := e.rate_control.bit_rate_info.num_enc_frames + 1 } } }
  else e

/-- `mjpeg_encoder_get_bit_rate`: `byte_rate * 8`. -/
def mjpeg_encoder_get_bit_rate (e : MJpegEncoder) : Nat :=
  e.rate_control.byte_rate * 8

/-- the denominator of the `avg_quality` quotient computed by
`mjpeg_encoder_get_stats`: the division
`(double)encoder->avg_quality / encoder->num_frames` carries no guard. -/
def mjpeg_encoder_get_stats_avg_quality_den (e : MJpegEncoder) : Nat :=
  e.num_frames

/-- the `avg_quality` quotient of `mjpeg_encoder_get_stats`, as a rational
(meaningful only when the denominator is non-zero). -/
def mjpeg_encoder_get_stats_avg_quality (e : MJpegEncoder) : ℚ :=
  (e.avg_quality : ℚ) / (mjpeg_encoder_get_stats_avg_quality_den e : ℚ)

/-- the zero-filled MJpegEncoder produced by `spice_new0`, with the two
external parameters (host source fps, libjpeg build flavor) attached. -/
def zeroEncoder (src_fps : Nat) (jcs_extensions : Bool) : MJpegEncoder :=
  { first_frame := false
    bytes_per_pixel := 0
    pixel_converter := false
    rate_control :=
      { during_quality_eval := false
        quality_eval_data := zeroQualityEval
        bit_rate_info :=
          { change_start_time := 0
            last_frame_time := 0
            change_start_mm_time := 0
            was_upgraded := false
            num_enc_frames := 0
            sum_enc_size := 0 }
        client_state := { max_video_latency := 0, max_audio_latency := 0 }
        server_state := { num_frames_encoded := 0, num_frames_dropped := 0 }
        byte_rate := 0
        quality_id := 0
        fps := 0
        adjusted_fps := 0
        adjusted_fps_start_time := 0
        adjusted_fps_num_frames := 0
        base_enc_size := 0
        last_enc_size := 0
        sum_recent_enc_size := 0
        num_recent_enc_frames := 0
        warmup_start_time := 0 }
    starting_bit_rate := 0
    avg_quality := 0
    num_frames := 0
    src_fps := src_fps
    jcs_extensions := jcs_extensions }

/-- `mjpeg_encoder_new`; `now` is the monotonic clock value read for
`warmup_start_time`. -/
def mjpeg_encoder_new (starting_bit_rate : Nat) (now : Nat) (src_fps : Nat)
    (jcs_extensions : Bool) : MJpegEncoder :=
  let e := zeroEncoder src_fps jcs_extensions
  let e := { e with
    first_frame := true
    starting_bit_rate := starting_bit_rate
    rate_control := { e.rate_control with byte_rate := starting_bit_rate / 8 } }
  let e := mjpeg_encoder_reset_quality e (MJPEG_QUALITY_SAMPLE_NUM / 2) 5 0
  { e with rate_control := { e.rate_control with
      during_quality_eval := true
      quality_eval_data := { e.rate_control.quality_eval_data with
        type := EvalType.SET
        reason := EvalReason.RATE_CHANGE }
      warmup_start_time := now } }

/-- `get_min_required_playback_delay`; `one_frame_time` and the sum
`one_frame_time*2 + latency` are `uint32_t` arithmetic. -/
def get_min_required_playback_delay (frame_enc_size byte_rate latency : Nat) : Nat :=
  if frame_enc_size = 0 ∨ byte_rate = 0 then latency
  else
    let one_frame_time := u32 (frame_enc_size * MSEC_PER_SEC / byte_rate)
    min (u32 (one_frame_time * 2 + latency)) MJPEG_MAX_CLIENT_PLAYBACK_DELAY

/-- one step of the quality walk: the previous frame was encoded at the
current quality id with `enc_size` bytes (`last_enc_size` as recorded by
`mjpeg_encoder_end_frame`), and the next frame submission runs
`mjpeg_encoder_adjust_params_to_bit_rate`, which - while
during_quality_eval - records that size and invokes the evaluator. The
clock value is irrelevant on this path. -/
def mjpeg_quality_walk_step (e : MJpegEncoder) (enc_size : Nat) : MJpegEncoder :=
  mjpeg_encoder_adjust_params_to_bit_rate
    { e with rate_control := { e.rate_control with last_enc_size := enc_size } } 0

/-! Preservation lemmas: which fields the individual operations leave
untouched. These mirror the absence of assignments in the C source. -/

theorem reset_quality_byte_rate (e : MJpegEncoder) (q f s : Nat) :
    (mjpeg_encoder_reset_quality e q f s).rate_control.byte_rate =
      e.rate_control.byte_rate := by
  simp only [mjpeg_encoder_reset_quality]
  split <;> split <;> rfl

theorem reset_quality_warmup (e : MJpegEncoder) (q f s : Nat) :
    (mjpeg_encoder_reset_quality e q f s).rate_control.warmup_start_time =
      e.rate_control.warmup_start_time := by
  simp only [mjpeg_encoder_reset_quality]
  split <;> split <;> rfl

theorem reset_quality_bit_rate_info (e : MJpegEncoder) (q f s : Nat) :
    (mjpeg_encoder_reset_quality e q f s).rate_control.bit_rate_info =
      e.rate_control.bit_rate_info := by
  simp only [mjpeg_encoder_reset_quality]
  split <;> split <;> rfl

theorem reset_quality_num_frames (e : MJpegEncoder) (q f s : Nat) :
    (mjpeg_encoder_reset_quality e q f s).num_frames = e.num_frames := by
  rfl

theorem reset_quality_fps_ge_one (e : MJpegEncoder) (q f s : Nat) :
    1 ≤ (mjpeg_encoder_reset_quality e q f s).rate_control.fps := by
  simp only [mjpeg_encoder_reset_quality, MJPEG_MIN_FPS, MJPEG_MAX_FPS]
  omega

theorem quality_eval_stop_byte_rate (e : MJpegEncoder) :
    (mjpeg_encoder_quality_eval_stop e).rate_control.byte_rate =
      e.rate_control.byte_rate := by
  simp only [mjpeg_encoder_quality_eval_stop]
  split
  · split <;> exact reset_quality_byte_rate ..
  · rfl

theorem quality_eval_stop_warmup (e : MJpegEncoder) :
    (mjpeg_encoder_quality_eval_stop e).rate_control.warmup_start_time =
      e.rate_control.warmup_start_time := by
  simp only [mjpeg_encoder_quality_eval_stop]
  split
  · split <;> exact reset_quality_warmup ..
  · rfl

theorem quality_eval_stop_bit_rate_info (e : MJpegEncoder) :
    (mjpeg_encoder_quality_eval_stop e).rate_control.bit_rate_info =
      e.rate_control.bit_rate_info := by
  simp only [mjpeg_encoder_quality_eval_stop]
  split
  · split <;> exact reset_quality_bit_rate_info ..
  · rfl

theorem quality_eval_stop_num_frames (e : MJpegEncoder) :
    (mjpeg_encoder_quality_eval_stop e).num_frames = e.num_frames := by
  simp only [mjpeg_encoder_quality_eval_stop]
  split
  · split <;> exact reset_quality_num_frames ..
  · rfl

theorem quality_eval_stop_fps_ge_one (e : MJpegEncoder) (h : 1 ≤ e.rate_control.fps) :
    1 ≤ (mjpeg_encoder_quality_eval_stop e).rate_control.fps := by
  simp only [mjpeg_encoder_quality_eval_stop]
  split
  · split <;> exact reset_quality_fps_ge_one ..
  · exact h

theorem set_upgrade_byte_rate (e : MJpegEncoder) (r : EvalReason) (q f : Nat) :
    (mjpeg_encoder_quality_eval_set_upgrade e r q f).rate_control.byte_rate =
      e.rate_control.byte_rate := by
  rfl

theorem set_downgrade_byte_rate (e : MJpegEncoder) (r : EvalReason) (q f : Nat) :
    (mjpeg_encoder_quality_eval_set_downgrade e r q f).rate_control.byte_rate =
      e.rate_control.byte_rate := by
  rfl

theorem complete_sample_num_frames (e : MJpegEncoder) :
    (mjpeg_eval_complete_sample e).num_frames = e.num_frames := by
  simp only [mjpeg_eval_complete_sample]
  rw [reset_quality_num_frames]

theorem eval_quality_num_frames (e : MJpegEncoder) :
    (mjpeg_encoder_eval_quality e).num_frames = e.num_frames := by
  simp only [mjpeg_encoder_eval_quality]
  repeat' split
  all_goals rfl

theorem decrease_core_num_frames (e : MJpegEncoder) :
    (mjpeg_decrease_bit_rate_core e).num_frames = e.num_frames := by
  rfl

theorem decrease_bit_rate_num_frames (e : MJpegEncoder) (now : Nat) :
    (mjpeg_encoder_decrease_bit_rate e now).num_frames = e.num_frames := by
  simp only [mjpeg_encoder_decrease_bit_rate]
  split
  · split
    · rw [quality_eval_stop_num_frames]
    · rw [decrease_core_num_frames, quality_eval_stop_num_frames]
  · rw [decrease_core_num_frames, quality_eval_stop_num_frames]

theorem process_server_drops_num_frames (e : MJpegEncoder) (now : Nat) :
    (mjpeg_encoder_process_server_drops e now).num_frames = e.num_frames := by
  simp only [mjpeg_encoder_process_server_drops]
  split
  · rfl
  · split
    · rw [decrease_bit_rate_num_frames]
    · rfl

theorem adjust_params_num_frames (e : MJpegEncoder) (now : Nat) :
    (mjpeg_encoder_adjust_params_to_bit_rate e now).num_frames = e.num_frames := by
  simp only [mjpeg_encoder_adjust_params_to_bit_rate]
  repeat' split
  all_goals
    first
      | rfl
      | (rw [eval_quality_num_frames]; try rfl)
      | (rw [process_server_drops_num_frames]; try rfl)

theorem adjust_fps_num_frames (e : MJpegEncoder) (now : Nat) :
    (mjpeg_encoder_adjust_fps e now).num_frames = e.num_frames := by
  simp only [mjpeg_encoder_adjust_fps]
  split <;> rfl

theorem start_frame_gate_num_frames (e : MJpegEncoder) (now : Nat) :
    (mjpeg_start_frame_gate e now).num_frames = e.num_frames := by
  simp only [mjpeg_start_frame_gate]
  split <;> rw [adjust_fps_num_frames]

theorem start_frame_body_num_frames (e : MJpegEncoder) (now mm : Nat) :
    (mjpeg_start_frame_body e now mm).num_frames = e.num_frames := by
  simp only [mjpeg_start_frame_body]
  split
  · rw [adjust_params_num_frames]
  · rw [adjust_params_num_frames]

theorem start_frame_gate_last_frame_time (e : MJpegEncoder) (now : Nat) :
    (mjpeg_start_frame_gate e now).rate_control.bit_rate_info.last_frame_time =
      e.rate_control.bit_rate_info.last_frame_time := by
  simp only [mjpeg_start_frame_gate, mjpeg_encoder_adjust_fps]
  repeat' split
  all_goals rfl

theorem quality_eval_stop_measured_raw (e : MJpegEncoder) :
    measured_byte_rate_raw (mjpeg_encoder_quality_eval_stop e) =
      measured_byte_rate_raw e := by
  simp only [measured_byte_rate_raw, quality_eval_stop_bit_rate_info]

/-- arithmetic core of the increase step: when the measured rate plus the
increase is not below the current byte rate, the update
`min measured byte_rate + increase` does not fall below byte_rate. -/
theorem min_add_increase_ge (b m i : Nat) (h : ¬ m + i < b) : b ≤ min m b + i := by
  rcases Nat.le_total m b with h1 | h1
  · rw [Nat.min_eq_left h1]
    omega
  · rw [Nat.min_eq_right h1]
    omega

/-- the byte-rate update of `mjpeg_encoder_increase_bit_rate` never lowers
byte_rate: shared by the proofs of the explicit monotonicity claim and of
the byte-rate positivity analysis. -/
theorem increase_bit_rate_byte_rate_le (e : MJpegEncoder) :
    e.rate_control.byte_rate ≤
      (mjpeg_encoder_increase_bit_rate e).rate_control.byte_rate := by
  simp only [mjpeg_encoder_increase_bit_rate]
  split
  · rw [set_upgrade_byte_rate]
    split
    · next h =>
        rw [quality_eval_stop_byte_rate]
    · next h =>
        rw [quality_eval_stop_byte_rate] at h
        simp only [quality_eval_stop_byte_rate]
        exact min_add_increase_ge _ _ _ h
  · exact Nat.le_refl _

/-- arithmetic core of the decrease step: subtracting
`decrease_size` (capped at half when it would exceed the measured rate)
from a positive measured rate leaves a positive value. -/
theorem decrease_sub_pos (m d : Nat) (hm : 0 < m) :
    0 < m - (if d ≥ m then m / 2 else d) := by
  split <;> omega

theorem decrease_core_byte_rate_pos (e : MJpegEncoder)
    (hb : 0 < e.rate_control.byte_rate)
    (hm : 0 < measured_byte_rate_raw e) :
    0 < (mjpeg_decrease_bit_rate_core e).rate_control.byte_rate := by
  simp only [mjpeg_decrease_bit_rate_core, set_downgrade_byte_rate]
  apply decrease_sub_pos
  split <;> omega

theorem decrease_bit_rate_byte_rate_pos (e : MJpegEncoder) (now : Nat)
    (hb : 0 < e.rate_control.byte_rate)
    (hm : 0 < measured_byte_rate_raw e) :
    0 < (mjpeg_encoder_decrease_bit_rate e now).rate_control.byte_rate := by
  simp only [mjpeg_encoder_decrease_bit_rate]
  split
  · split
    · rw [quality_eval_stop_byte_rate]
      exact hb
    · apply decrease_core_byte_rate_pos
      · rw [quality_eval_stop_byte_rate]
        exact hb
      · simp only [measured_byte_rate_raw, quality_eval_stop_bit_rate_info]
        simpa only [measured_byte_rate_raw] using hm
  · apply decrease_core_byte_rate_pos
    · rw [quality_eval_stop_byte_rate]
      exact hb
    · simp only [measured_byte_rate_raw, quality_eval_stop_bit_rate_info]
      simpa only [measured_byte_rate_raw] using hm

/-! Claim theorems. -/

/-- C1: for every frame submitted to encode_frame while rate control is
active (positive pacing rate, monotonic clock), the frame is rejected with
DROP exactly when the elapsed monotonic time since the last accepted frame
(now - bit_rate_info.last_frame_time) is strictly less than
NSEC_PER_SEC / adjusted_fps nanoseconds; a frame that passes this gate is
never returned as DROP. -/
theorem c1_admission_gate_drop_iff (e : MJpegEncoder) (now : Nat)
    (fmt : BitmapFmt) (w mm : Nat)
    (_hfps : 0 < (mjpeg_start_frame_gate e now).rate_control.adjusted_fps)
    (_hmono : e.rate_control.bit_rate_info.last_frame_time ≤ now) :
    (mjpeg_encoder_start_frame e now fmt w mm).1 = FrameResult.FRAME_DROP ↔
      ((now - e.rate_control.bit_rate_info.last_frame_time : Nat) : ℚ) <
        (NSEC_PER_SEC : ℚ) /
          (mjpeg_start_frame_gate e now).rate_control.adjusted_fps := by
  simp only [mjpeg_encoder_start_frame, start_frame_gate_last_frame_time]
  split
  · next h => exact iff_of_true rfl h
  · next h =>
      apply iff_of_false ?_ h
      cases fmt <;> simp only []
      · split
        · simp
        · simp
      · split
        · simp
        · simp
      · split
        · simp
        · simp
      · split
        · simp
        · simp
      · simp

theorem c1_admission_gate_drop_iff_witness :
    0 < (mjpeg_start_frame_gate (mjpeg_encoder_new 8000000 1 25 false)
          2).rate_control.adjusted_fps ∧
    (mjpeg_encoder_new 8000000 1 25
          false).rate_control.bit_rate_info.last_frame_time ≤ 2 ∧
    (mjpeg_encoder_start_frame (mjpeg_encoder_new 8000000 1 25 false) 2
        BitmapFmt.FMT_32BIT 640 0).1 = FrameResult.FRAME_DROP :=
  ⟨by with_unfolding_all decide, by with_unfolding_all decide,
   (c1_admission_gate_drop_iff (mjpeg_encoder_new 8000000 1 25 false) 2
      BitmapFmt.FMT_32BIT 640 0
      (by with_unfolding_all decide)
      (by with_unfolding_all decide)).mpr
    (by with_unfolding_all decide)⟩

/-- C2: a Decrease-bit-rate call made while the warm-up window is active
(warmup_start_time non-zero, less than MJPEG_WARMUP_TIME = 3 s of
monotonic time elapsed since it) leaves byte_rate unchanged. -/
theorem c2_decrease_bit_rate_warmup_keeps_byte_rate (e : MJpegEncoder) (now : Nat)
    (hw : e.rate_control.warmup_start_time ≠ 0)
    (ht : now - e.rate_control.warmup_start_time < MJPEG_WARMUP_TIME) :
    (mjpeg_encoder_decrease_bit_rate e now).rate_control.byte_rate =
      e.rate_control.byte_rate := by
  simp only [mjpeg_encoder_decrease_bit_rate, quality_eval_stop_warmup]
  rw [if_pos hw, if_pos ht, quality_eval_stop_byte_rate]

theorem c2_decrease_bit_rate_warmup_keeps_byte_rate_witness :
    (mjpeg_encoder_new 8000000 7 25 false).rate_control.warmup_start_time ≠ 0 ∧
    1000000007 - (mjpeg_encoder_new 8000000 7 25
        false).rate_control.warmup_start_time < MJPEG_WARMUP_TIME ∧
    (mjpeg_encoder_decrease_bit_rate (mjpeg_encoder_new 8000000 7 25 false)
        1000000007).rate_control.byte_rate =
      (mjpeg_encoder_new 8000000 7 25 false).rate_control.byte_rate :=
  ⟨by with_unfolding_all decide, by with_unfolding_all decide,
   c2_decrease_bit_rate_warmup_keeps_byte_rate
     (mjpeg_encoder_new 8000000 7 25 false) 1000000007
     (by with_unfolding_all decide) (by with_unfolding_all decide)⟩

/-- C3: every Increase-bit-rate call leaves byte_rate greater than or
equal to its value before the call; byte_rate is unchanged when there are
too few frames or when measured_byte_rate + increase_size < byte_rate, and
is min(measured_byte_rate, byte_rate) + increase_size otherwise. -/
theorem c3_increase_bit_rate_never_reduces (e : MJpegEncoder) :
    e.rate_control.byte_rate ≤
      (mjpeg_encoder_increase_bit_rate e).rate_control.byte_rate ∧
    (mjpeg_encoder_increase_bit_rate e).rate_control.byte_rate =
      (if e.rate_control.bit_rate_info.num_enc_frames >
            MJPEG_BIT_RATE_EVAL_MIN_NUM_FRAMES ∨
          e.rate_control.bit_rate_info.num_enc_frames > e.rate_control.fps then
         if measured_byte_rate_raw e +
              e.rate_control.bit_rate_info.sum_enc_size /
                e.rate_control.bit_rate_info.num_enc_frames <
              e.rate_control.byte_rate then
           e.rate_control.byte_rate
         else
           min (measured_byte_rate_raw e) e.rate_control.byte_rate +
             e.rate_control.bit_rate_info.sum_enc_size /
               e.rate_control.bit_rate_info.num_enc_frames
       else e.rate_control.byte_rate) := by
  refine ⟨increase_bit_rate_byte_rate_le e, ?_⟩
  simp only [mjpeg_encoder_increase_bit_rate]
  split
  · rw [set_upgrade_byte_rate]
    dsimp only
    split
    · next h =>
        rw [quality_eval_stop_byte_rate] at h
        rw [quality_eval_stop_byte_rate, if_pos h]
    · next h =>
        rw [quality_eval_stop_byte_rate] at h
        rw [if_neg h]
        simp only [quality_eval_stop_byte_rate]
  · rfl

/-- the quality-walk scenario: construction with starting_bit_rate
8 Mbps (byte_rate 1000000) and src_fps 25, then four evaluation steps
driven by encoded sizes 20 KB, 25 KB, 40 KB, 90 KB (observed at quality
ids 3, 4, 5, 6 respectively). -/
def c4_eval_walk : MJpegEncoder :=
  mjpeg_quality_walk_step
    (mjpeg_quality_walk_step
      (mjpeg_quality_walk_step
        (mjpeg_quality_walk_step (mjpeg_encoder_new 8000000 1 25 false) 20000)
        25000)
      40000)
    90000

theorem c4_eval_walk_not_quality_5 :
    c4_eval_walk.rate_control.during_quality_eval = false ∧
    c4_eval_walk.rate_control.quality_id ≠ 5 := by
  with_unfolding_all decide

/-- C4 (amended): starting the quality evaluation from the median quality
(quality_id 3, SET type) with src_fps = 25 and byte_rate = 1000000, with
successive sampled encoded sizes 20 KB at quality 3, 25 KB at quality 4,
40 KB at quality 5 and 90 KB at quality 6, the evaluator commits with
final quality_id = 6 (not 5): at quality 6 the sampled rate of 11 fps
still clears the permissive bar (> 5 fps), so the walk ends by reaching
the top of the table and the commit rule
max(quality_id, max_sampled_fps_quality_id) = max(6, 5) yields 6,
with final fps 11. -/
theorem c4_eval_walk_commits_quality_6 :
    c4_eval_walk.rate_control.quality_id = 6 ∧
    c4_eval_walk.rate_control.during_quality_eval = false ∧
    c4_eval_walk.rate_control.fps = 11 := by
  with_unfolding_all decide

theorem c5_playback_delay_gt_5000_at_zero_size :
    0 < 1 ∧ get_min_required_playback_delay 0 1 6000 = 6000 ∧
    ¬ get_min_required_playback_delay 0 1 6000 ≤ 5000 := by
  decide

/-- C5 (amended): for every triple (frame_enc_size, byte_rate, latency)
with frame_enc_size > 0 and byte_rate > 0, get_min_required_playback_delay
returns at most 5000 ms; when frame_enc_size = 0 the function returns the
latency unclamped, which can exceed 5000. -/
theorem c5_playback_delay_le_5000 (frame_enc_size byte_rate latency : Nat)
    (hf : 0 < frame_enc_size) (hb : 0 < byte_rate) :
    get_min_required_playback_delay frame_enc_size byte_rate latency ≤ 5000 := by
  simp only [get_min_required_playback_delay, MJPEG_MAX_CLIENT_PLAYBACK_DELAY,
    MSEC_PER_SEC]
  rw [if_neg (by omega)]
  omega

theorem c5_playback_delay_le_5000_witness :
    0 < 1 ∧ 0 < 1 ∧ get_min_required_playback_delay 1 1 9999 ≤ 5000 :=
  ⟨by decide, by decide,
   c5_playback_delay_le_5000 1 1 9999 (by decide) (by decide)⟩

/-- C6: immediately after construction with starting_bit_rate = 8000000
(and any non-zero clock value and any host source fps), the encoder state
has byte_rate = 1000000, quality_id = 3, fps = 5,
during_quality_eval = true, a non-zero warmup_start_time, and
get_bit_rate returns 8000000. -/
theorem c6_construction_defaults (now src_fps : Nat) (jcs : Bool)
    (hnow : now ≠ 0) :
    (mjpeg_encoder_new 8000000 now src_fps jcs).rate_control.byte_rate = 1000000 ∧
    (mjpeg_encoder_new 8000000 now src_fps jcs).rate_control.quality_id = 3 ∧
    (mjpeg_encoder_new 8000000 now src_fps jcs).rate_control.fps = 5 ∧
    (mjpeg_encoder_new 8000000 now src_fps jcs).rate_control.during_quality_eval = true ∧
    (mjpeg_encoder_new 8000000 now src_fps jcs).rate_control.warmup_start_time ≠ 0 ∧
    mjpeg_encoder_get_bit_rate (mjpeg_encoder_new 8000000 now src_fps jcs) = 8000000 := by
  have h1 : (mjpeg_encoder_new 8000000 now src_fps jcs).rate_control.byte_rate =
      1000000 := rfl
  refine ⟨rfl, rfl, rfl, rfl, hnow, ?_⟩
  simp [mjpeg_encoder_get_bit_rate, h1]

theorem c6_construction_defaults_witness :
    (7 : Nat) ≠ 0 ∧
    (mjpeg_encoder_new 8000000 7 25 false).rate_control.byte_rate = 1000000 ∧
    mjpeg_encoder_get_bit_rate (mjpeg_encoder_new 8000000 7 25 false) = 8000000 :=
  ⟨by decide,
   (c6_construction_defaults 7 25 false (by decide)).1,
   (c6_construction_defaults 7 25 false (by decide)).2.2.2.2.2⟩

/-- a reachable state with a non-zero last_enc_size: construction at
8 Mbps, one successfully encoded frame of 1000 bytes. -/
def c7_state : MJpegEncoder :=
  mjpeg_encoder_end_frame
    (mjpeg_encoder_start_frame (mjpeg_encoder_new 8000000 1 25 false)
      1000000000 BitmapFmt.FMT_32BIT 640 0).2
    1000

theorem c7_unsupported_format_keeps_last_enc_size :
    (mjpeg_encoder_start_frame c7_state 2000000000 BitmapFmt.OTHER 640 0).1 =
      FrameResult.FRAME_UNSUPPORTED ∧
    (mjpeg_encoder_start_frame c7_state 2000000000 BitmapFmt.OTHER 640
        0).2.rate_control.last_enc_size = 1000 := by
  with_unfolding_all decide

/-- C7 (amended): when frame encoding fails at the scanline-writing stage,
last_enc_size is forced to 0; when start_frame returns UNSUPPORTED
(unrecognized pixel format or row-stride overflow), last_enc_size is left
exactly as the preceding rate-control adjustment left it - in particular
it can stay non-zero, so only the scanline failure path protects the rate
estimator. -/
theorem c7_unsupported_last_enc_size (e : MJpegEncoder) (now : Nat)
    (fmt : BitmapFmt) (w mm : Nat) :
    (mjpeg_encoder_encode_scanline e 0).2.rate_control.last_enc_size = 0 ∧
    ((mjpeg_encoder_start_frame e now fmt w mm).1 =
        FrameResult.FRAME_UNSUPPORTED →
      (mjpeg_encoder_start_frame e now fmt w
          mm).2.rate_control.last_enc_size =
        (mjpeg_start_frame_body (mjpeg_start_frame_gate e now) now
            mm).rate_control.last_enc_size) := by
  constructor
  · rfl
  · intro h
    simp only [mjpeg_encoder_start_frame] at h ⊢
    split at h
    · simp at h
    · rename_i hgate
      rw [if_neg hgate]
      cases fmt
      all_goals simp only []
      all_goals split <;> rfl

theorem c7_unsupported_last_enc_size_witness :
    (mjpeg_encoder_start_frame c7_state 2000000000 BitmapFmt.OTHER 640 0).1 =
      FrameResult.FRAME_UNSUPPORTED ∧
    (mjpeg_encoder_start_frame c7_state 2000000000 BitmapFmt.OTHER 640
        0).2.rate_control.last_enc_size =
      (mjpeg_start_frame_body (mjpeg_start_frame_gate c7_state 2000000000)
          2000000000 0).rate_control.last_enc_size :=
  ⟨by with_unfolding_all decide,
   (c7_unsupported_last_enc_size c7_state 2000000000 BitmapFmt.OTHER 640 0).2
     (by with_unfolding_all decide)⟩

theorem c8_construction_zero_byte_rate :
    ¬ (0 < (mjpeg_encoder_new 0 5 25 false).rate_control.byte_rate) := by
  with_unfolding_all decide

/-- C8 (amended): after construction byte_rate equals
starting_bit_rate / 8, which is positive only when
starting_bit_rate ≥ 8 (so byte_rate = 0 is reachable by construction with
a smaller starting_bit_rate); Increase-bit-rate never lowers byte_rate;
and Decrease-bit-rate preserves positivity of byte_rate whenever the
measured byte rate `sum_enc_size · 10⁹ / (last_frame_time −
change_start_time)` is non-zero (with a measured rate that truncates to
zero, the decrease step itself can drive byte_rate to 0). -/
theorem c8_byte_rate_evolution :
    (∀ starting_bit_rate now src_fps jcs,
       (mjpeg_encoder_new starting_bit_rate now src_fps
           jcs).rate_control.byte_rate = starting_bit_rate / 8) ∧
    (∀ e : MJpegEncoder,
       e.rate_control.byte_rate ≤
         (mjpeg_encoder_increase_bit_rate e).rate_control.byte_rate) ∧
    (∀ (e : MJpegEncoder) (now : Nat),
       0 < e.rate_control.byte_rate →
       0 < measured_byte_rate_raw e →
       0 < (mjpeg_encoder_decrease_bit_rate e now).rate_control.byte_rate) :=
  ⟨fun _ _ _ _ => rfl, increase_bit_rate_byte_rate_le,
   decrease_bit_rate_byte_rate_pos⟩

/-- a state ready for a measured decrease: rate change 1 second ago,
5 frames totalling 1 MB encoded since, warm-up expired. -/
def c8_state : MJpegEncoder :=
  { mjpeg_encoder_new 8000000 7 25 false with
    rate_control := { (mjpeg_encoder_new 8000000 7 25 false).rate_control with
      during_quality_eval := false
      warmup_start_time := 0
      bit_rate_info :=
        { change_start_time := 1
          last_frame_time := 1000000001
          change_start_mm_time := 1
          was_upgraded := false
          num_enc_frames := 5
          sum_enc_size := 1000000 } } }

theorem c8_byte_rate_evolution_witness :
    0 < c8_state.rate_control.byte_rate ∧
    0 < measured_byte_rate_raw c8_state ∧
    0 < (mjpeg_encoder_decrease_bit_rate c8_state
          123).rate_control.byte_rate :=
  ⟨by with_unfolding_all decide, by with_unfolding_all decide,
   c8_byte_rate_evolution.2.2 c8_state 123
     (by with_unfolding_all decide) (by with_unfolding_all decide)⟩

/-- C9: mjpeg_encoder_get_stats divides the accumulated quality sum by
num_frames with no guard for zero; num_frames is 0 on a freshly
constructed encoder, and is incremented by a frame submission exactly when
start_frame reaches the JPEG setup path (returns ENCODE_DONE) - so the
stats quotient divides by zero until one frame submission has reached that
path. -/
theorem c9_get_stats_avg_quality_denominator :
    (∀ starting_bit_rate now src_fps jcs,
       mjpeg_encoder_get_stats_avg_quality_den
         (mjpeg_encoder_new starting_bit_rate now src_fps jcs) = 0) ∧
    (∀ (e : MJpegEncoder) (now : Nat) (fmt : BitmapFmt) (w mm : Nat),
       (mjpeg_encoder_start_frame e now fmt w mm).2.num_frames =
         e.num_frames +
           (if (mjpeg_encoder_start_frame e now fmt w mm).1 =
               FrameResult.FRAME_ENCODE_DONE then 1 else 0)) := by
  constructor
  · intro starting_bit_rate now src_fps jcs
    rfl
  · intro e now fmt w mm
    simp only [mjpeg_encoder_start_frame]
    split
    · simp [start_frame_gate_num_frames]
    · cases fmt <;> simp only []
      · split <;> simp [start_frame_body_num_frames, start_frame_gate_num_frames]
      · split <;> simp [start_frame_body_num_frames, start_frame_gate_num_frames]
      · split <;> simp [start_frame_body_num_frames, start_frame_gate_num_frames]
      · split <;> simp [start_frame_body_num_frames, start_frame_gate_num_frames]
      · simp [start_frame_body_num_frames, start_frame_gate_num_frames]

/-- C10: whenever during_quality_eval is true and the evaluation's reason
is RATE_CHANGE - whatever the evaluation's type - the positive
client-stream-report handler returns before the timeout check, never
invokes Increase-bit-rate, and leaves the whole state unchanged. -/
theorem c10_handle_positive_ignored_during_rate_change (e : MJpegEncoder)
    (report_start_frame_mm_time : Nat)
    (hd : e.rate_control.during_quality_eval = true)
    (hr : e.rate_control.quality_eval_data.reason = EvalReason.RATE_CHANGE) :
    mjpeg_encoder_handle_positive_client_stream_report e
      report_start_frame_mm_time = e := by
  simp only [mjpeg_encoder_handle_positive_client_stream_report]
  rw [if_pos ⟨hd, hr⟩]

theorem c10_handle_positive_ignored_during_rate_change_witness :
    (mjpeg_encoder_new 8000000 7 25 false).rate_control.during_quality_eval = true ∧
    (mjpeg_encoder_new 8000000 7 25
        false).rate_control.quality_eval_data.reason = EvalReason.RATE_CHANGE ∧
    mjpeg_encoder_handle_positive_client_stream_report
        (mjpeg_encoder_new 8000000 7 25 false) 12345 =
      mjpeg_encoder_new 8000000 7 25 false :=
  ⟨rfl, rfl,
   c10_handle_positive_ignored_during_rate_change
     (mjpeg_encoder_new 8000000 7 25 false) 12345 rfl rfl⟩
